import Mathlib

set_option maxRecDepth 100000

/-
Verification development for the rnews batch front-end
(src/frontends/rnews.c).  The definitions below are a shallow embedding
of the functions named in the claims: Process, ReadBytecount,
ReadRemainder, ReadLine, UnpackOne, WaitForChildren, Spool and Unspool.
Streams are lists of characters; descriptors are modelled by an explicit
Source value that records seekability; server replies are scripted.
-/

namespace Rnews

/-- A byte source: either a seekable descriptor (a regular file with an
explicit offset) or a pipe (whose consumed bytes are gone).  This mirrors
the single file descriptor that UnpackOne threads through the loop and
that StartChild replaces with the read end of a pipe. -/
inductive Source where
  | file (data : List Char) (pos : Nat)
  | pipe (data : List Char)
deriving Repr, DecidableEq

/-- Bytes not yet consumed from the source (what read(2) can still see). -/
def Source.remaining : Source → List Char
  | Source.file d p => d.drop p
  | Source.pipe d => d

/-- read of a single byte, as in the one-byte reads of UnpackOne. -/
def Source.read1 : Source → Option (Char × Source)
  | Source.file d p =>
    match d.drop p with
    | [] => none
    | c :: _ => some (c, Source.file d (p + 1))
  | Source.pipe d =>
    match d with
    | [] => none
    | c :: rest => some (c, Source.pipe rest)

/-- lseek(fd, 0, 0): rewinds a seekable descriptor; fails silently (is a
no-op) on a pipe, exactly as in the C code paths that ignore its result. -/
def Source.lseek0 : Source → Source
  | Source.file d _ => Source.file d 0
  | Source.pipe d => Source.pipe d

/-- Consume n bytes (the read loop of ReadBytecount). -/
def Source.consume : Source → Nat → Source
  | Source.file d p, n => Source.file d (p + n)
  | Source.pipe d, n => Source.pipe (d.drop n)

/-- Consume everything up to end of stream. -/
def Source.consumeAll : Source → Source
  | Source.file d _ => Source.file d d.length
  | Source.pipe _ => Source.pipe []

/-- The backing data of the source when it is still a seekable file; none
once a decompression child has replaced it by a pipe. -/
def Source.fileData : Source → Option (List Char)
  | Source.file d _ => some d
  | Source.pipe _ => none

/-- RNEWS_MAGIC1 from the batch format: first byte of a batch marker. -/
def RNEWS_MAGIC1 : Char := '#'

/-- RNEWS_MAGIC2 from the batch format: second byte of a batch marker. -/
def RNEWS_MAGIC2 : Char := '!'

/-- 0x1f, the first byte of both the gzip and the compress magic. -/
def GZIP_MAGIC0 : Char := Char.ofNat 31

/-- 0x8b, the second byte of the gzip magic. -/
def GZIP_MAGIC1 : Char := Char.ofNat 139

/-- 0x9d, the second byte of the legacy compress magic. -/
def COMPRESS_MAGIC1 : Char := Char.ofNat 157

/-- SMBUF, the small buffer size used for reply lines and command lines. -/
def SMBUF : Nat := 256

/-- Modelled from the spec: numeric peer status codes.  They live in
nntp.h, which is not among these sources; the values are the standard
codes that the spec scenarios use (335 send-it, 435 already-have,
436 resend-later) together with the standard took-it and rejected codes
of the offer protocol.  Only their distinctness matters to the theorems. -/
def NNTP_SENDIT_VAL : Nat := 335

/-- Modelled from the spec: the already-have reply to an offer. -/
def NNTP_HAVEIT_VAL : Nat := 435

/-- Modelled from the spec: the resend-later reply. -/
def NNTP_RESENDIT_VAL : Nat := 436

/-- Modelled from the spec: the took-it reply after the body. -/
def NNTP_TOOKIT_VAL : Nat := 235

/-- Modelled from the spec: the rejected reply after the body. -/
def NNTP_REJECTIT_VAL : Nat := 437

/-- REMclean: truncate a reply line at the first CR or LF, exactly the
effect of nulling the first carriage return and the first newline. -/
def REMclean (s : String) : String :=
  String.mk (s.data.takeWhile (fun c => !(c == '\r' || c == '\n')))

/-- The isdigit test applied to the first byte of a reply buffer; an empty
buffer holds a NUL first byte, which is not a digit. -/
def firstIsDigit (s : String) : Bool :=
  match s.data with
  | [] => false
  | c :: _ => c.isDigit

/-- Value of a digit string, most significant first. -/
def digitsVal (l : List Char) : Nat :=
  l.foldl (fun a c => 10 * a + (c.toNat - 48)) 0

/-- atoi as used on reply buffers whose first byte was checked to be a
digit: the value of the leading run of digits. -/
def atoiModel (s : String) : Nat :=
  digitsVal (s.data.takeWhile Char.isDigit)

/-- atoi as used on the count field of a bytecount command line: optional
leading whitespace, optional sign, leading digits. -/
def atoiInt (s : List Char) : Int :=
  let t := s.dropWhile (fun c => c == ' ' || c == '\t' || c == '\n' || c == '\r')
  match t with
  | '-' :: rest => - (digitsVal (rest.takeWhile Char.isDigit) : Int)
  | '+' :: rest => (digitsVal (rest.takeWhile Char.isDigit) : Int)
  | _ => (digitsVal (t.takeWhile Char.isDigit) : Int)

/-- The RequiredHeaders table, in the order Process scans it. -/
def RequiredHeaders : List (List Char) :=
  ["Message-ID".data, "Newsgroups".data, "From".data, "Date".data,
   "Subject".data, "Path".data]

/-- Split a character list at newlines, the line structure that the
header scan walks (the list always ends with the text after the last
newline, possibly empty). -/
def splitNl : List Char → List (List Char)
  | [] => [[]]
  | '\n' :: rest => [] :: splitNl rest
  | c :: rest =>
    match splitNl rest with
    | [] => [[c]]
    | l :: ls => (c :: l) :: ls

/-- Lowercase a character list. -/
def lowerL (l : List Char) : List Char :=
  l.map Char.toLower

/-- Modelled from the spec: header lookup (HeaderFindMem lives in libinn,
not among these sources).  A header is present when some line of the
article starts with the header name followed by a colon, compared case
insensitively. -/
def headerMatches (name line : List Char) : Bool :=
  (lowerL name ++ [':']).isPrefixOf (lowerL line)

/-- The lines of an article, split at newlines. -/
def articleLines (article : String) : List (List Char) :=
  splitNl article.data

/-- Index of the first line carrying the named header, if any. -/
def findHeaderIdx (article : String) (name : List Char) : Option Nat :=
  (articleLines article).findIdx? (fun l => headerMatches name l)

/-- The first required header missing from the article, scanning the
RequiredHeaders table in order, as the header loop of Process does. -/
def firstMissingHeader (article : String) : Option (List Char) :=
  RequiredHeaders.find? (fun n => (findHeaderIdx article n).isNone)

/-- The Message-ID value up to its terminating newline; none when the
header line is the final, newline-unterminated text of the article
(the strchr check of Process). -/
def msgidOf (article : String) : Option String :=
  match findHeaderIdx article "Message-ID".data with
  | none => none
  | some i =>
    if i + 1 < (articleLines article).length then
      some (String.mk ((((articleLines article).getD i []).drop
        ("Message-ID".data.length + 1)).dropWhile (fun c => c == ' ' || c == '\t')))
    else none

/-- Everything Process writes to the server stream: the offer line built
from the Message-ID, and the dot-stuffed article body. -/
inductive ServerMsg where
  | offerLine (msgid : String)
  | articleBody (article : String)
deriving Repr, DecidableEq

/-- The point in Process at which control left the function. -/
inductive POutcome where
  | emptyOk
  | missingHeader (name : List Char)
  | untermMsgid
  | offerReadFail
  | offerBadReply
  | offerUnknownReply
  | offerResendLater
  | duplicate
  | sendArticleFail
  | bodyReadFail
  | bodyBadReply
  | bodyUnknownReply
  | bodyResendLater
  | accepted
  | rejectedByPeer
deriving Repr, DecidableEq

/-- The scripted behaviour of the peer for one Process call: the reply
line to the offer (none for a failed fgets), whether NNTPsendarticle
succeeds, and the reply line after the body. -/
structure ProcessEnv where
  offerReply : Option String
  sendOk : Bool
  bodyReply : Option String
deriving Repr, DecidableEq

/-- The peer script seen once the input is exhausted. -/
def ProcessEnv.eof : ProcessEnv := ⟨none, true, none⟩

/-- What one call of Process did: the messages written to the server, the
returned boolean (FALSE means the whole batch needs to be saved), where
control left, and whether Reject was called on the article. -/
structure ProcResult where
  sent : List ServerMsg
  ok : Bool
  outcome : POutcome
  rejected : Bool
deriving Repr, DecidableEq

/-- Process, translated branch for branch from rnews.c.  An empty article
returns TRUE at once; a missing required header or an unterminated
Message-ID is Rejected and returns FALSE; the offer is sent and the reply
classified: resend-later FALSE, already-have TRUE, any other unknown code
Rejected and TRUE, send-it continues; the body is sent and the reply
classified: took-it TRUE, rejected Rejected and TRUE, while resend-later
and (by the explicit fall through) any unknown code return FALSE. -/
def Process (article : String) (env : ProcessEnv) : ProcResult :=
  if article = "" then ⟨[], true, POutcome.emptyOk, false⟩
  else
    match firstMissingHeader article with
    | some name => ⟨[], false, POutcome.missingHeader name, true⟩
    | none =>
      match msgidOf article with
      | none => ⟨[], false, POutcome.untermMsgid, true⟩
      | some m =>
        let sent0 := [ServerMsg.offerLine m]
        match env.offerReply with
        | none => ⟨sent0, false, POutcome.offerReadFail, false⟩
        | some raw =>
          let buff := REMclean raw
          if firstIsDigit buff = false then ⟨sent0, false, POutcome.offerBadReply, false⟩
          else if atoiModel buff = NNTP_RESENDIT_VAL then
            ⟨sent0, false, POutcome.offerResendLater, false⟩
          else if atoiModel buff = NNTP_HAVEIT_VAL then
            ⟨sent0, true, POutcome.duplicate, false⟩
          else if atoiModel buff ≠ NNTP_SENDIT_VAL then
            ⟨sent0, true, POutcome.offerUnknownReply, true⟩
          else
            let sent1 := sent0 ++ [ServerMsg.articleBody article]
            if env.sendOk = false then ⟨sent1, false, POutcome.sendArticleFail, false⟩
            else
              match env.bodyReply with
              | none => ⟨sent1, false, POutcome.bodyReadFail, false⟩
              | some raw2 =>
                let buff2 := REMclean raw2
                if firstIsDigit buff2 = false then ⟨sent1, false, POutcome.bodyBadReply, false⟩
                else if atoiModel buff2 = NNTP_TOOKIT_VAL then
                  ⟨sent1, true, POutcome.accepted, false⟩
                else if atoiModel buff2 = NNTP_REJECTIT_VAL then
                  ⟨sent1, true, POutcome.rejectedByPeer, true⟩
                else ⟨sent1, false,
                  (if atoiModel buff2 = NNTP_RESENDIT_VAL then POutcome.bodyResendLater
                   else POutcome.bodyUnknownReply), false⟩

/-- Append a trailing newline when the last byte is not already one, the
final step of both framers. -/
def ensureNl (l : List Char) : List Char :=
  if l.getLast? = some '\n' then l else l ++ ['\n']

/-- CRLF pairs become bare LF, the per-line conversion of ReadRemainder
(modelled on the whole stream; the out-of-bounds quirk for a lone first
newline is not reproduced). -/
def crlfToLf : List Char → List Char
  | [] => []
  | '\r' :: '\n' :: rest => '\n' :: crlfToLf rest
  | c :: rest => c :: crlfToLf rest

/-- What ReadBytecount did: its returned boolean, the advanced source,
the messages sent, and the article handed to Process (none when the
stream ended before the declared count, in which case the partly read
article is logged and dropped, the forwarding code being disabled). -/
structure RBResult where
  ok : Bool
  src : Source
  sent : List ServerMsg
  article? : Option String
deriving Repr, DecidableEq

/-- ReadBytecount: read exactly artsize bytes; on end-of-stream before
the count is reached, warn and return TRUE without processing; otherwise
terminate with a newline when needed and hand the article to Process. -/
def readBytecountModel (src : Source) (artsize : Nat) (env : ProcessEnv) : RBResult :=
  if src.remaining.length < artsize then
    ⟨true, src.consumeAll, [], none⟩
  else
    let article := String.mk (ensureNl (src.remaining.take artsize))
    let r := Process article env
    ⟨r.ok, src.consume artsize, r.sent, some article⟩

/-- ReadLine: single bytes up to a newline, bounded by the buffer size.
none models the sysdie on end-of-stream inside the line; some none is the
overlong-line FALSE; otherwise the line without its newline plus the
advanced source. -/
def readLineModel : Nat → Source → Option (Option (List Char × Source))
  | 0, _ => some none
  | Nat.succ lim, src =>
    match src.read1 with
    | none => none
    | some (c, src1) =>
      if c = '\n' then some (some ([], src1))
      else
        match readLineModel lim src1 with
        | none => none
        | some none => some none
        | some (some (cs, src2)) => some (some (c :: cs, src2))

/-- The loop state of UnpackOne: the current descriptor, the remaining
peer script, the spawned-children count, and the SawCunbatch, HadCount
and gzip flags, plus everything sent to the server so far. -/
structure UState where
  src : Source
  envs : List ProcessEnv
  count : Nat
  sawCunbatch : Bool
  hadCount : Bool
  gzip : Bool
  sent : List ServerMsg
deriving Repr

/-- How UnpackOne ended: TRUE, FALSE, a sysdie inside ReadLine, or the
model ran out of fuel. -/
inductive UOutcome where
  | success
  | failure
  | died
  | fuelOut
deriving Repr, DecidableEq

/-- Pop the next scripted peer behaviour, end-of-file once exhausted. -/
def popEnv (envs : List ProcessEnv) : ProcessEnv × List ProcessEnv :=
  match envs with
  | [] => (ProcessEnv.eof, [])
  | e :: rest => (e, rest)

/-- ReadRemainder: the rest of the stream, with the already-consumed
bytes put back in front, CRLF converted and a final newline guaranteed,
handed to Process; the stream is exhausted by it. -/
def readRemainderStep (st : UState) (pre : List Char) : UOutcome × UState :=
  let pair := popEnv st.envs
  let article := String.mk (ensureNl (pre ++ crlfToLf st.src.remaining))
  let r := Process article pair.1
  ((if r.ok then UOutcome.success else UOutcome.failure),
   { st with
     src := st.src.consumeAll
     envs := pair.2
     sent := st.sent ++ r.sent })

/-- One iteration of the UnpackOne loop, with the looping continuations
passed in as rec.  Translated branch for branch: first byte (EOF breaks
with TRUE; 0x1f records the gzip flag; any other byte that is not the
batch magic falls back to ReadRemainder unless a count was already seen);
second byte (EOF is the one-byte-batch FALSE); the gzip or compress magic
spawns a child over the descriptor rewound to the start and loops; a
wrong second magic falls back to ReadRemainder unless a count was seen;
otherwise the command line is read and dispatched: a bytecount line with
a positive count runs ReadBytecount and loops on TRUE, a second count
after one was seen is corruption, a cunbatch line spawns a child over the
remaining stream and loops (nesting forbidden), and any other command is
the unknown-command FALSE (the external-programs build is disabled). -/
def unpackStep (inflate : List Char → List Char)
    (rec : UState → UOutcome × UState) (st : UState) : UOutcome × UState :=
  match st.src.read1 with
  | none => (UOutcome.success, st)
  | some (b0, src1) =>
    if b0 ≠ GZIP_MAGIC0 ∧ b0 ≠ RNEWS_MAGIC1 then
      if st.hadCount then (UOutcome.failure, { st with src := src1 })
      else readRemainderStep { st with src := src1 } [b0]
    else
      match src1.read1 with
      | none =>
        (UOutcome.failure,
         { st with src := src1, gzip := st.gzip || decide (b0 = GZIP_MAGIC0) })
      | some (b1, src2) =>
        if ((st.gzip || decide (b0 = GZIP_MAGIC0)) = true) ∧
            (b1 = GZIP_MAGIC1 ∨ b1 = COMPRESS_MAGIC1) then
          rec { st with
                src := Source.pipe (inflate (src2.lseek0).remaining)
                count := st.count + 1
                sawCunbatch := true
                gzip := st.gzip || decide (b0 = GZIP_MAGIC0) }
        else if b1 ≠ RNEWS_MAGIC2 then
          if st.hadCount then
            (UOutcome.failure,
             { st with src := src2, gzip := st.gzip || decide (b0 = GZIP_MAGIC0) })
          else
            readRemainderStep
              { st with src := src2, gzip := st.gzip || decide (b0 = GZIP_MAGIC0) }
              [b0, b1]
        else
          match readLineModel (SMBUF - 3) src2 with
          | none =>
            (UOutcome.died,
             { st with src := src2, gzip := st.gzip || decide (b0 = GZIP_MAGIC0) })
          | some none =>
            (UOutcome.failure,
             { st with src := src2, gzip := st.gzip || decide (b0 = GZIP_MAGIC0) })
          | some (some (line, src3)) =>
            if "#! rnews ".data.isPrefixOf (b0 :: b1 :: line) then
              if atoiInt ((b0 :: b1 :: line).drop 9) ≤ 0 then
                (UOutcome.failure,
                 { st with src := src3, gzip := st.gzip || decide (b0 = GZIP_MAGIC0) })
              else
                if (readBytecountModel src3 (atoiInt ((b0 :: b1 :: line).drop 9)).toNat
                    (popEnv st.envs).1).ok then
                  rec { st with
                        src := (readBytecountModel src3
                          (atoiInt ((b0 :: b1 :: line).drop 9)).toNat
                          (popEnv st.envs).1).src
                        envs := (popEnv st.envs).2
                        hadCount := true
                        gzip := st.gzip || decide (b0 = GZIP_MAGIC0)
                        sent := st.sent ++ (readBytecountModel src3
                          (atoiInt ((b0 :: b1 :: line).drop 9)).toNat
                          (popEnv st.envs).1).sent }
                else
                  (UOutcome.failure,
                   { st with
                     src := (readBytecountModel src3
                       (atoiInt ((b0 :: b1 :: line).drop 9)).toNat
                       (popEnv st.envs).1).src
                     envs := (popEnv st.envs).2
                     hadCount := true
                     gzip := st.gzip || decide (b0 = GZIP_MAGIC0)
                     sent := st.sent ++ (readBytecountModel src3
                       (atoiInt ((b0 :: b1 :: line).drop 9)).toNat
                       (popEnv st.envs).1).sent })
            else if st.hadCount then
              (UOutcome.failure,
               { st with src := src3, gzip := st.gzip || decide (b0 = GZIP_MAGIC0) })
            else if (b0 :: b1 :: line) = "#! cunbatch".data then
              if st.sawCunbatch then
                (UOutcome.failure,
                 { st with src := src3, gzip := st.gzip || decide (b0 = GZIP_MAGIC0) })
              else
                rec { st with
                      src := Source.pipe (inflate src3.remaining)
                      count := st.count + 1
                      sawCunbatch := true
                      gzip := st.gzip || decide (b0 = GZIP_MAGIC0) }
            else
              (UOutcome.failure,
               { st with src := src3, gzip := st.gzip || decide (b0 = GZIP_MAGIC0) })

/-- The UnpackOne loop, fuelled. -/
def unpackLoop (inflate : List Char → List Char) : Nat → UState → UOutcome × UState
  | 0, st => (UOutcome.fuelOut, st)
  | Nat.succ fuel, st => unpackStep inflate (unpackLoop inflate fuel) st

/-- WaitForChildren n with z exited children waiting to be reaped and r
still running: each of the n iterations calls waitpid with WNOHANG, which
reaps an exited child when one is available, returns zero when children
are still running (the loop just goes on), and fails with ECHILD when no
children remain (the loop breaks).  The value is the number reaped. -/
def waitForChildren : Nat → Nat → Nat → Nat
  | 0, _, _ => 0
  | Nat.succ n, z, r =>
    if 0 < z then waitForChildren n (z - 1) r + 1
    else if 0 < r then waitForChildren n z r
    else 0

/-- One whole non-replay invocation after the connection is up: run
UnpackOne; on FALSE, lseek the descriptor back to offset zero and spool
everything it still yields (Spool then exits, so WaitForChildren is never
reached); on TRUE, close and make the WaitForChildren attempts, of which
zombies children have already exited. -/
structure RunResult where
  outcome : UOutcome
  count : Nat
  sent : List ServerMsg
  finalSrc : Source
  spooled : Option (List Char)
  reaped : Option Nat
deriving Repr

/-- What main does with the result of UnpackOne: on FALSE, rewind the
descriptor to offset zero and spool what it still yields, exiting inside
Spool before any reaping; on TRUE, close and run WaitForChildren over the
spawned count, of which zombies have already exited. -/
def runMainFrom (res : UOutcome × UState) (zombies : Nat) : RunResult :=
  match res.1 with
  | UOutcome.failure =>
    ⟨UOutcome.failure, res.2.count, res.2.sent, res.2.src,
     some ((res.2.src.lseek0).remaining), none⟩
  | UOutcome.success =>
    ⟨UOutcome.success, res.2.count, res.2.sent, res.2.src, none,
     some (waitForChildren res.2.count (min zombies res.2.count) (res.2.count - zombies))⟩
  | o => ⟨o, res.2.count, res.2.sent, res.2.src, none, none⟩

/-- The main flow of rnews without the replay mode: UnpackOne over the
input, then either the spool path or the reap path. -/
def runMain (inflate : List Char → List Char) (fuel : Nat) (data : List Char)
    (seekable : Bool) (envs : List ProcessEnv) (zombies : Nat) : RunResult :=
  runMainFrom
    (unpackLoop inflate fuel
      ⟨(if seekable then Source.file data 0 else Source.pipe data),
       envs, 0, false, false, false, []⟩)
    zombies

/-- Modelled from the spec: advisory file locking (inn_lock_file lives in
libinn, not among these sources).  The lock types carry the standard
advisory semantics the call site names: a read lock is shared, compatible
with other read locks and refused only while a write lock is held, while
a write lock is exclusive. -/
inductive LockType where
  | lockRead
  | lockWrite
deriving Repr, DecidableEq

/-- Whether a new lock of type t can be granted given the current
holders, nonblocking. -/
def canLock (holders : List (Nat × LockType)) (t : LockType) : Bool :=
  match t with
  | LockType.lockRead => holders.all (fun h => h.2 = LockType.lockRead)
  | LockType.lockWrite => holders.isEmpty

/-- Nonblocking lock attempt by process pid: grant and record, or fail
and leave the holders unchanged. -/
def tryLock (holders : List (Nat × LockType)) (pid : Nat) (t : LockType) :
    Bool × List (Nat × LockType) :=
  if canLock holders t then (true, (pid, t) :: holders) else (false, holders)

/-- The lock type Unspool passes to inn_lock_file: INN_LOCK_READ. -/
def unspoolLockType : LockType := LockType.lockRead

/-- Filesystem operations performed by Spool, by basename. -/
inductive FsOp where
  | create (name : List Char)
  | writeOp (name : List Char) (len : Nat)
  | closeOp (name : List Char)
  | renameOp (src dst : List Char)
deriving Repr, DecidableEq

/-- Whether an operation is the rename. -/
def FsOp.isRen : FsOp → Bool
  | FsOp.renameOp _ _ => true
  | _ => false

/-- The basename of the temporary spool file: a dot, the UUCP host, and
the mkstemp suffix. -/
def spoolTmpName (host sfx : List Char) : List Char :=
  '.' :: (host ++ sfx)

/-- The basename of the final spool file: the UUCP host and the mkstemp
suffix, no leading dot. -/
def spoolFinalName (host sfx : List Char) : List Char :=
  host ++ sfx

/-- The operation trace of Spool, one writeOp per successful read chunk:
create the dot-named temporary, write every chunk to it, close it, create
and close the final-name placeholder, and only then rename the temporary
onto the final name. -/
def spoolTrace (host sfx1 sfx2 : List Char) (chunks : List Nat) : List FsOp :=
  (FsOp.create (spoolTmpName host sfx1) ::
   (chunks.map (fun l => FsOp.writeOp (spoolTmpName host sfx1) l) ++
    [FsOp.closeOp (spoolTmpName host sfx1),
     FsOp.create (spoolFinalName host sfx2),
     FsOp.closeOp (spoolFinalName host sfx2)])) ++
  [FsOp.renameOp (spoolTmpName host sfx1) (spoolFinalName host sfx2)]

/-- The replay sweep filter of Unspool: an entry is considered only when
its name does not start with a dot and it is a regular file. -/
def unspoolConsiders (name : List Char) (isReg : Bool) : Bool :=
  (!(name.head? == some '.')) && isReg

/-- A minimal article carrying all six required headers. -/
def artFull : String :=
  "Message-ID:m\nNewsgroups:n\nFrom:f\nDate:d\nSubject:s\nPath:p\n\nb\n"

/-- The same article with the Date header removed. -/
def artNoDate : String :=
  "Message-ID:m\nNewsgroups:n\nFrom:f\nSubject:s\nPath:p\n\nb\n"

/-- A peer that accepts everything. -/
def envAccept : ProcessEnv := ⟨some "335 ok", true, some "235 ok"⟩

/-- A peer that answers the offer with resend-later. -/
def envBusy : ProcessEnv := ⟨some "436 busy", true, none⟩

/-- A peer that answers the offer with already-have. -/
def envDup : ProcessEnv := ⟨some "435 dup", true, none⟩

/-- A peer that answers the offer with an unrecognized code. -/
def envOddOffer : ProcessEnv := ⟨some "290 strange", true, none⟩

/-- A peer that accepts the offer and answers the body with an
unrecognized code. -/
def envOddBody : ProcessEnv := ⟨some "335 ok", true, some "290 strange"⟩

/-- A two-article bytecount batch whose first article lacks Date. -/
def c1input : List Char :=
  ("#! rnews 53\n" ++ artNoDate ++ "#! rnews 53\n" ++ artNoDate).data

/-- A two-article bytecount batch of full articles. -/
def c2input : List Char :=
  ("#! rnews 60\n" ++ artFull ++ "#! rnews 60\n" ++ artFull).data

/-- A one-article bytecount batch of a full article. -/
def c3input : List Char :=
  ("#! rnews 60\n" ++ artFull).data

/-- A bytecount batch whose declared count exceeds the available bytes. -/
def c4input : List Char :=
  "#! rnews 50\nshort".data

/-- A batch of n nested compressed layers: each layer starts with the
gzip magic and unwraps, through inflateN, to the next layer down. -/
def blob : Nat → List Char
  | 0 => []
  | Nat.succ k => GZIP_MAGIC0 :: GZIP_MAGIC1 :: List.replicate k 'x'

/-- The decompression oracle matching blob: the child output for a layer
with k marker characters is the layer of depth k. -/
def inflateN (l : List Char) : List Char :=
  blob (l.count 'x')

/-- Reading one byte never changes the backing file of a source. -/
theorem read1_fileData (s s' : Source) (c : Char) (h : s.read1 = some (c, s')) :
    s'.fileData = s.fileData := by
  cases s with
  | file d p =>
    simp only [Source.read1] at h
    split at h
    · exact absurd h (by simp)
    · simp only [Option.some.injEq, Prod.mk.injEq] at h
      rw [← h.2]
      rfl
  | pipe d =>
    simp only [Source.read1] at h
    split at h
    · exact absurd h (by simp)
    · simp only [Option.some.injEq, Prod.mk.injEq] at h
      rw [← h.2]
      rfl

/-- Consuming bytes never changes the backing file of a source. -/
theorem consume_fileData (s : Source) (n : Nat) :
    (s.consume n).fileData = s.fileData := by
  cases s <;> rfl

/-- Exhausting a source never changes its backing file. -/
theorem consumeAll_fileData (s : Source) :
    s.consumeAll.fileData = s.fileData := by
  cases s <;> rfl

/-- ReadLine never changes the backing file of a source. -/
theorem readLineModel_fileData (lim : Nat) :
    ∀ s line s', readLineModel lim s = some (some (line, s')) →
    s'.fileData = s.fileData := by
  induction lim with
  | zero =>
    intro s line s' h
    simp [readLineModel] at h
  | succ lim ih =>
    intro s line s' h
    simp only [readLineModel] at h
    split at h
    · exact absurd h (by simp)
    next c s1 hr =>
      split at h
      · simp only [Option.some.injEq, Prod.mk.injEq] at h
        rw [← h.2]
        exact read1_fileData s s1 c hr
      · split at h
        · exact absurd h (by simp)
        · exact absurd h (by simp)
        next cs s2 hrec =>
          simp only [Option.some.injEq, Prod.mk.injEq] at h
          rw [← h.2, ih s1 cs s2 hrec]
          exact read1_fileData s s1 c hr

/-- ReadBytecount never changes the backing file of the source. -/
theorem rb_fileData (s : Source) (n : Nat) (env : ProcessEnv) :
    (readBytecountModel s n env).src.fileData = s.fileData := by
  unfold readBytecountModel
  split
  · exact consumeAll_fileData s
  · exact consume_fileData s n

/-- ReadRemainder never changes the backing file of the source. -/
theorem rr_fileData (st : UState) (pre : List Char) :
    (readRemainderStep st pre).2.src.fileData = st.src.fileData := by
  unfold readRemainderStep
  exact consumeAll_fileData st.src

/-- One loop iteration either keeps the backing file of the descriptor or
replaces the descriptor by a pipe (once a child is spawned the backing
file is gone for good). -/
theorem unpackStep_fileData (inflate : List Char → List Char)
    (rec : UState → UOutcome × UState)
    (hrec : ∀ st2, (rec st2).2.src.fileData = st2.src.fileData ∨
      (rec st2).2.src.fileData = none)
    (st : UState) :
    (unpackStep inflate rec st).2.src.fileData = st.src.fileData ∨
    (unpackStep inflate rec st).2.src.fileData = none := by
  unfold unpackStep
  split
  · left; rfl
  next b0 src1 hr =>
    have e1 := read1_fileData st.src src1 b0 hr
    split
    · split
      · left; exact e1
      · left; exact (rr_fileData _ _).trans e1
    · split
      · left; exact e1
      next b1 src2 hr2 =>
        have e2 : src2.fileData = st.src.fileData :=
          (read1_fileData src1 src2 b1 hr2).trans e1
        split
        · exact Or.inr ((hrec _).elim (fun h => h.trans rfl) id)
        · split
          · split
            · left; exact e2
            · left; exact (rr_fileData _ _).trans e2
          · split
            · left; exact e2
            · left; exact e2
            next line src3 hl =>
              have e3 : src3.fileData = st.src.fileData :=
                (readLineModel_fileData (SMBUF - 3) src2 line src3 hl).trans e2
              split
              · split
                · left; exact e3
                · split
                  · exact (hrec _).imp
                      (fun h => h.trans ((rb_fileData _ _ _).trans e3)) id
                  · left; exact (rb_fileData _ _ _).trans e3
              · split
                · left; exact e3
                · split
                  · split
                    · left; exact e3
                    · exact Or.inr ((hrec _).elim (fun h => h.trans rfl) id)
                  · left; exact e3

/-- The whole loop either keeps the backing file of the descriptor or
ends with a pipe. -/
theorem unpackLoop_fileData (inflate : List Char → List Char) :
    ∀ fuel st, (unpackLoop inflate fuel st).2.src.fileData = st.src.fileData ∨
    (unpackLoop inflate fuel st).2.src.fileData = none := by
  intro fuel
  induction fuel with
  | zero => intro st; left; rfl
  | succ f ih =>
    intro st
    rw [unpackLoop]
    exact unpackStep_fileData inflate (unpackLoop inflate f) ih st

/-- On the failure outcome runMainFrom spools the rewound descriptor,
reports that descriptor, and never reaps. -/
theorem runMainFrom_failure (res : UOutcome × UState) (z : Nat)
    (hfail : (runMainFrom res z).outcome = UOutcome.failure) :
    (runMainFrom res z).spooled = some ((res.2.src.lseek0).remaining) ∧
    (runMainFrom res z).finalSrc = res.2.src ∧
    (runMainFrom res z).reaped = none := by
  rcases res with ⟨out, st⟩
  cases out with
  | failure => exact ⟨rfl, rfl, rfl⟩
  | success => exact UOutcome.noConfusion hfail
  | died => exact UOutcome.noConfusion hfail
  | fuelOut => exact UOutcome.noConfusion hfail

/-- Claim C2 (amended): when the batch aborts and the descriptor is still
the original seekable input (no decompression child replaced it), the
spooled bytes are the whole original input from offset zero, because the
abort path rewinds the descriptor before spooling. -/
theorem c2_amended_thm (inflate : List Char → List Char) (fuel : Nat)
    (data : List Char) (envs : List ProcessEnv) (z : Nat)
    (hfail : (runMain inflate fuel data true envs z).outcome = UOutcome.failure)
    (hfile : (runMain inflate fuel data true envs z).finalSrc.fileData ≠ none) :
    (runMain inflate fuel data true envs z).spooled = some data := by
  have inv := unpackLoop_fileData inflate fuel
    ⟨Source.file data 0, envs, 0, false, false, false, []⟩
  have hfail2 : (runMainFrom (unpackLoop inflate fuel
      ⟨Source.file data 0, envs, 0, false, false, false, []⟩) z).outcome =
      UOutcome.failure := hfail
  obtain ⟨hsp, hfs, _⟩ := runMainFrom_failure _ z hfail2
  have hfile2 : (unpackLoop inflate fuel
      ⟨Source.file data 0, envs, 0, false, false, false, []⟩).2.src.fileData ≠
      none := by
    intro hcon
    apply hfile
    show (runMainFrom (unpackLoop inflate fuel
      ⟨Source.file data 0, envs, 0, false, false, false, []⟩) z).finalSrc.fileData = none
    rw [hfs, hcon]
  have inv2 : (unpackLoop inflate fuel
      ⟨Source.file data 0, envs, 0, false, false, false, []⟩).2.src.fileData =
      some data ∨
      (unpackLoop inflate fuel
      ⟨Source.file data 0, envs, 0, false, false, false, []⟩).2.src.fileData =
      none := inv
  show (runMainFrom (unpackLoop inflate fuel
    ⟨Source.file data 0, envs, 0, false, false, false, []⟩) z).spooled = some data
  rw [hsp]
  cases hsrc : (unpackLoop inflate fuel
      ⟨Source.file data 0, envs, 0, false, false, false, []⟩).2.src with
  | file d p =>
    rw [hsrc] at inv2
    rcases inv2 with h | h
    · have hd : d = data := by
        simpa [Source.fileData] using h
      simp [Source.lseek0, Source.remaining, hd]
    · exact absurd h (by simp [Source.fileData])
  | pipe d =>
    rw [hsrc] at hfile2
    exact absurd rfl hfile2

/-- Claim C2 witness: the amended theorem at the two-article batch whose
first offer gets resend-later; the spool is the whole 144-byte input. -/
theorem c2_amended_witness :
    (runMain (fun l => l) 10 c2input true [envBusy, envAccept] 0).spooled =
      some c2input :=
  c2_amended_thm (fun l => l) 10 c2input [envBusy, envAccept] 0
    (by decide) (by decide)

/-- Claim C2 counterexample: the peer answers the first offer with 436;
the run aborts having consumed 72 of the 144 input bytes, nothing is
offered afterwards, yet the spool holds the whole input, not the unread
72-byte remainder. -/
theorem c2_counterexample :
    (runMain (fun l => l) 10 c2input true [envBusy, envAccept] 0).outcome =
      UOutcome.failure ∧
    (runMain (fun l => l) 10 c2input true [envBusy, envAccept] 0).sent =
      [ServerMsg.offerLine "m"] ∧
    (runMain (fun l => l) 10 c2input true [envBusy, envAccept] 0).spooled =
      some c2input ∧
    (runMain (fun l => l) 10 c2input true [envBusy, envAccept] 0).spooled ≠
      some (c2input.drop 72) := by
  refine ⟨by decide, by decide, by decide, by decide⟩

/-- Claim C1 (amended): an article lacking a required header is Rejected
with no offer line sent, but Process returns FALSE, which makes the
containing batch abort and be spooled rather than continue. -/
theorem c1_amended_thm (article : String) (env : ProcessEnv) (name : List Char)
    (hne : article ≠ "") (h : firstMissingHeader article = some name) :
    (Process article env).sent = [] ∧ (Process article env).rejected = true ∧
    (Process article env).ok = false := by
  simp [Process, hne, h]

/-- Claim C1 witness: the amended theorem applied to the article without
a Date header. -/
theorem c1_amended_witness :
    (Process artNoDate envAccept).sent = [] ∧
    (Process artNoDate envAccept).rejected = true ∧
    (Process artNoDate envAccept).ok = false :=
  c1_amended_thm artNoDate envAccept "Date".data (by decide) (by decide)

/-- Claim C1 counterexample: a two-article batch whose first article
lacks Date sends no offer, yet the whole batch run ends in failure (the
spool path) instead of continuing with the second article, which is
never offered. -/
theorem c1_counterexample :
    (Process artNoDate envAccept).sent = [] ∧
    (Process artNoDate envAccept).ok = false ∧
    (runMain (fun l => l) 10 c1input true [envAccept, envAccept] 0).outcome =
      UOutcome.failure ∧
    (runMain (fun l => l) 10 c1input true [envAccept, envAccept] 0).sent = [] := by
  refine ⟨by decide, by decide, by decide, by decide⟩

/-- Claim C3 (amended): an unrecognized numeric code after the body is
logged (not Rejected) and then, by the explicit fall through, handled
exactly like resend-later: Process returns FALSE and the batch aborts. -/
theorem c3_amended_thm (article m raw raw2 : String) (env : ProcessEnv)
    (hne : article ≠ "") (hh : firstMissingHeader article = none)
    (hm : msgidOf article = some m)
    (ho : env.offerReply = some raw)
    (hd : firstIsDigit (REMclean raw) = true)
    (hsend : atoiModel (REMclean raw) = NNTP_SENDIT_VAL)
    (hok : env.sendOk = true)
    (hb : env.bodyReply = some raw2)
    (hd2 : firstIsDigit (REMclean raw2) = true)
    (h1 : atoiModel (REMclean raw2) ≠ NNTP_TOOKIT_VAL)
    (h2 : atoiModel (REMclean raw2) ≠ NNTP_REJECTIT_VAL)
    (h3 : atoiModel (REMclean raw2) ≠ NNTP_RESENDIT_VAL) :
    (Process article env).ok = false ∧
    (Process article env).outcome = POutcome.bodyUnknownReply ∧
    (Process article env).rejected = false := by
  have e1 : atoiModel (REMclean raw) ≠ NNTP_RESENDIT_VAL := by rw [hsend]; decide
  have e2 : atoiModel (REMclean raw) ≠ NNTP_HAVEIT_VAL := by rw [hsend]; decide
  simp [Process, hne, hh, hm, ho, hd, hok, hb, hd2, e1, e2, hsend, h1, h2, h3]
  simp [NNTP_SENDIT_VAL, NNTP_RESENDIT_VAL, NNTP_HAVEIT_VAL]

/-- Claim C3 witness: the amended theorem at the full article with a
peer answering the body with the unknown code 290. -/
theorem c3_amended_witness :
    (Process artFull envOddBody).ok = false ∧
    (Process artFull envOddBody).outcome = POutcome.bodyUnknownReply ∧
    (Process artFull envOddBody).rejected = false :=
  c3_amended_thm artFull "m" "335 ok" "290 strange" envOddBody (by decide)
    (by decide) (by decide) (by decide) (by decide) (by decide) (by decide)
    (by decide) (by decide) (by decide) (by decide) (by decide)

/-- Claim C3 counterexample: with the unknown post-body code 290 the
Process call returns FALSE and the batch run ends in failure (spooling),
refuting log-and-continue. -/
theorem c3_counterexample :
    (Process artFull envOddBody).outcome = POutcome.bodyUnknownReply ∧
    (Process artFull envOddBody).ok = false ∧
    (runMain (fun l => l) 10 c3input true [envOddBody] 0).outcome =
      UOutcome.failure := by
  refine ⟨by decide, by decide, by decide⟩

/-- Claim C4 (amended): when the stream ends before the declared count,
ReadBytecount returns TRUE (the batch is not aborted) but nothing is sent
to the peer and no article is processed: the truncated article is
dropped, not forwarded. -/
theorem c4_amended_thm (src : Source) (artsize : Nat) (env : ProcessEnv)
    (h : src.remaining.length < artsize) :
    (readBytecountModel src artsize env).ok = true ∧
    (readBytecountModel src artsize env).sent = [] ∧
    (readBytecountModel src artsize env).article? = none := by
  simp [readBytecountModel, h]

/-- Claim C4 witness: the amended theorem at a five-byte stream with a
declared count of fifty. -/
theorem c4_amended_witness :
    (readBytecountModel (Source.file "short".data 0) 50 envAccept).ok = true ∧
    (readBytecountModel (Source.file "short".data 0) 50 envAccept).sent = [] ∧
    (readBytecountModel (Source.file "short".data 0) 50 envAccept).article? = none :=
  c4_amended_thm (Source.file "short".data 0) 50 envAccept (by decide)

/-- Claim C4 counterexample: a batch declaring fifty bytes but holding
five ends in success with nothing ever offered to the peer, refuting the
claim that the truncated article is forwarded. -/
theorem c4_counterexample :
    (runMain (fun l => l) 10 c4input true [envAccept] 0).outcome =
      UOutcome.success ∧
    (runMain (fun l => l) 10 c4input true [envAccept] 0).sent = [] := by
  refine ⟨by decide, by decide⟩

/-- Claim C5: with the INN_LOCK_READ type that Unspool actually passes,
a first replay pass acquires the advisory lock and a second concurrent
pass acquires it as well, so both process the same spool file; a write
(exclusive) lock would have refused the second pass. -/
theorem c5_bug_thm :
    (tryLock [] 1 unspoolLockType).1 = true ∧
    (tryLock (tryLock [] 1 unspoolLockType).2 2 unspoolLockType).1 = true ∧
    (tryLock (tryLock [] 1 LockType.lockWrite).2 2 LockType.lockWrite).1 = false := by
  decide

/-- Claim C7: for a byte-counted article whose reads succeed, the framer
consumes exactly the declared count from the stream and the processed
article is those bytes with one newline appended exactly when the final
byte is not already a newline. -/
theorem c7_thm (src : Source) (artsize : Nat) (env : ProcessEnv)
    (_h1 : 0 < artsize) (h2 : artsize ≤ src.remaining.length) :
    (readBytecountModel src artsize env).src = src.consume artsize ∧
    (src.remaining.take artsize).length = artsize ∧
    (readBytecountModel src artsize env).article? =
      some (String.mk ((src.remaining.take artsize) ++
        (if (src.remaining.take artsize).getLast? = some '\n' then [] else ['\n']))) := by
  have hlt : ¬ (src.remaining.length < artsize) := not_lt.mpr h2
  refine ⟨?_, ?_, ?_⟩
  · simp [readBytecountModel, hlt]
  · simp [List.length_take]
    omega
  · simp only [readBytecountModel, if_neg hlt, ensureNl]
    split
    · simp
    · simp

/-- Claim C7 witness: the theorem at a three-byte stream without a final
newline; the framed article gains one. -/
theorem c7_witness :
    (readBytecountModel (Source.file "abc".data 0) 3 envAccept).src =
      (Source.file "abc".data 0).consume 3 ∧
    ((Source.file "abc".data 0).remaining.take 3).length = 3 ∧
    (readBytecountModel (Source.file "abc".data 0) 3 envAccept).article? =
      some (String.mk (((Source.file "abc".data 0).remaining.take 3) ++
        (if ((Source.file "abc".data 0).remaining.take 3).getLast? = some '\n'
         then [] else ['\n']))) :=
  c7_thm (Source.file "abc".data 0) 3 envAccept (by decide) (by decide)

/-- Claim C8: an already-have reply to the offer gives the duplicate
outcome, nothing is written to the peer after the single offer line, and
Process returns TRUE so the batch continues. -/
theorem c8_thm (article m raw : String) (env : ProcessEnv)
    (hne : article ≠ "") (hh : firstMissingHeader article = none)
    (hm : msgidOf article = some m) (ho : env.offerReply = some raw)
    (hd : firstIsDigit (REMclean raw) = true)
    (hcode : atoiModel (REMclean raw) = NNTP_HAVEIT_VAL) :
    (Process article env).sent = [ServerMsg.offerLine m] ∧
    (Process article env).ok = true ∧
    (Process article env).outcome = POutcome.duplicate := by
  have e1 : atoiModel (REMclean raw) ≠ NNTP_RESENDIT_VAL := by rw [hcode]; decide
  simp [Process, hne, hh, hm, ho, hd, hcode, e1]
  simp [NNTP_HAVEIT_VAL, NNTP_RESENDIT_VAL]

/-- Claim C8 witness: the theorem at the full article with the peer
answering 435. -/
theorem c8_witness :
    (Process artFull envDup).sent = [ServerMsg.offerLine "m"] ∧
    (Process artFull envDup).ok = true ∧
    (Process artFull envDup).outcome = POutcome.duplicate :=
  c8_thm artFull "m" "435 dup" envDup (by decide) (by decide) (by decide)
    (by decide) (by decide) (by decide)

/-- Claim C9: a numeric offer reply other than send-it, already-have and
resend-later is Rejected (logged as a per-article reject), nothing beyond
the offer line is sent, and Process returns TRUE: the batch continues and
is not aborted. -/
theorem c9_thm (article m raw : String) (env : ProcessEnv)
    (hne : article ≠ "") (hh : firstMissingHeader article = none)
    (hm : msgidOf article = some m) (ho : env.offerReply = some raw)
    (hd : firstIsDigit (REMclean raw) = true)
    (h1 : atoiModel (REMclean raw) ≠ NNTP_RESENDIT_VAL)
    (h2 : atoiModel (REMclean raw) ≠ NNTP_HAVEIT_VAL)
    (h3 : atoiModel (REMclean raw) ≠ NNTP_SENDIT_VAL) :
    (Process article env).sent = [ServerMsg.offerLine m] ∧
    (Process article env).ok = true ∧
    (Process article env).rejected = true ∧
    (Process article env).outcome = POutcome.offerUnknownReply := by
  simp [Process, hne, hh, hm, ho, hd, h1, h2, h3]

/-- WaitForChildren makes n nonblocking attempts and reaps exactly the
children that have already exited, never more than n: the value is
min n z, independent of how many children are still running. -/
theorem waitForChildren_eq_min (n : Nat) :
    ∀ z r, waitForChildren n z r = min n z := by
  induction n with
  | zero =>
    intro z r
    simp [waitForChildren]
  | succ n ih =>
    intro z r
    simp only [waitForChildren]
    by_cases hz : 0 < z
    · rw [if_pos hz, ih]
      omega
    · rw [if_neg hz]
      by_cases hr : 0 < r
      · rw [if_pos hr, ih]
        omega
      · rw [if_neg hr]
        omega

/-- Decoding a nested-compression tower from a pipe spawns one child per
layer and ends in success. -/
theorem blob_loop (k : Nat) :
    ∀ fuel st, st.src = Source.pipe (blob k) → st.hadCount = false →
    k + 1 ≤ fuel →
    (unpackLoop inflateN fuel st).1 = UOutcome.success ∧
    (unpackLoop inflateN fuel st).2.count = st.count + k := by
  induction k with
  | zero =>
    intro fuel st hsrc hhc hf
    obtain ⟨f, rfl⟩ : ∃ f, fuel = f + 1 := ⟨fuel - 1, by omega⟩
    simp only [unpackLoop]
    unfold unpackStep
    rw [hsrc]
    simp [blob, Source.read1]
  | succ k ih =>
    intro fuel st hsrc hhc hf
    obtain ⟨f, rfl⟩ : ∃ f, fuel = f + 1 := ⟨fuel - 1, by omega⟩
    simp only [unpackLoop]
    unfold unpackStep
    rw [hsrc, show blob (k + 1) =
      GZIP_MAGIC0 :: GZIP_MAGIC1 :: List.replicate k 'x' from rfl]
    simp only [Source.read1, Source.lseek0, Source.remaining, inflateN]
    simp [List.count_replicate_self]
    have hres := ih f
      ⟨Source.pipe (blob k), st.envs, st.count + 1, true, st.hadCount, true, st.sent⟩
      rfl hhc (by omega)
    have h2 : st.count + 1 + k = st.count + (k + 1) := by omega
    exact ⟨hres.1, hres.2.trans h2⟩

/-- Decoding a nested-compression tower from the original file spawns one
child per layer and ends in success. -/
theorem unpackLoop_blob_file (n : Nat) :
    ∀ fuel, n + 2 ≤ fuel →
    (unpackLoop inflateN fuel
      ⟨Source.file (blob n) 0, [], 0, false, false, false, []⟩).1 =
      UOutcome.success ∧
    (unpackLoop inflateN fuel
      ⟨Source.file (blob n) 0, [], 0, false, false, false, []⟩).2.count = n := by
  cases n with
  | zero =>
    intro fuel hf
    obtain ⟨f, rfl⟩ : ∃ f, fuel = f + 1 := ⟨fuel - 1, by omega⟩
    simp only [unpackLoop]
    unfold unpackStep
    simp [blob, Source.read1]
  | succ k =>
    intro fuel hf
    obtain ⟨f, rfl⟩ : ∃ f, fuel = f + 1 := ⟨fuel - 1, by omega⟩
    simp only [unpackLoop]
    unfold unpackStep
    rw [show blob (k + 1) =
      GZIP_MAGIC0 :: GZIP_MAGIC1 :: List.replicate k 'x' from rfl]
    simp only [Source.read1, Source.lseek0, Source.remaining, inflateN]
    have hc0 : (GZIP_MAGIC0 == 'x') = false := by decide
    have hc1 : (GZIP_MAGIC1 == 'x') = false := by decide
    simp [List.drop, hc0, hc1, List.count_cons, List.count_replicate_self]
    have hres := blob_loop k f
      ⟨Source.pipe (blob k), [], 1, true, false, true, []⟩ rfl rfl (by omega)
    have h2 : (1 : Nat) + k = k + 1 := by omega
    exact ⟨hres.1, hres.2.trans h2⟩

/-- On the success outcome runMainFrom reports the loop count and reaps
min count zombies. -/
theorem runMainFrom_success (res : UOutcome × UState) (z : Nat)
    (hs : res.1 = UOutcome.success) :
    (runMainFrom res z).count = res.2.count ∧
    (runMainFrom res z).outcome = UOutcome.success ∧
    (runMainFrom res z).reaped =
      some (waitForChildren res.2.count (min z res.2.count) (res.2.count - z)) := by
  rcases res with ⟨out, st⟩
  cases out with
  | success => exact ⟨rfl, rfl, rfl⟩
  | failure => exact UOutcome.noConfusion hs
  | died => exact UOutcome.noConfusion hs
  | fuelOut => exact UOutcome.noConfusion hs

/-- The run of a nested-compression tower spawns one child per layer,
succeeds, and reaps only the children that have already exited. -/
theorem runMain_blob (n fuel z : Nat) (hf : n + 2 ≤ fuel) :
    (runMain inflateN fuel (blob n) true [] z).count = n ∧
    (runMain inflateN fuel (blob n) true [] z).outcome = UOutcome.success ∧
    (runMain inflateN fuel (blob n) true [] z).reaped = some (min n z) := by
  obtain ⟨h1, h2⟩ := unpackLoop_blob_file n fuel hf
  have hc : (runMainFrom (unpackLoop inflateN fuel
      ⟨Source.file (blob n) 0, [], 0, false, false, false, []⟩) z).count =
      (unpackLoop inflateN fuel
      ⟨Source.file (blob n) 0, [], 0, false, false, false, []⟩).2.count ∧
      (runMainFrom (unpackLoop inflateN fuel
      ⟨Source.file (blob n) 0, [], 0, false, false, false, []⟩) z).outcome =
      UOutcome.success ∧
      (runMainFrom (unpackLoop inflateN fuel
      ⟨Source.file (blob n) 0, [], 0, false, false, false, []⟩) z).reaped =
      some (waitForChildren (unpackLoop inflateN fuel
        ⟨Source.file (blob n) 0, [], 0, false, false, false, []⟩).2.count
        (min z (unpackLoop inflateN fuel
        ⟨Source.file (blob n) 0, [], 0, false, false, false, []⟩).2.count)
        ((unpackLoop inflateN fuel
        ⟨Source.file (blob n) 0, [], 0, false, false, false, []⟩).2.count - z)) :=
    runMainFrom_success _ z h1
  obtain ⟨hca, hcb, hcc⟩ := hc
  rw [h2] at hca hcc
  refine ⟨hca, hcb, ?_⟩
  show (runMainFrom (unpackLoop inflateN fuel
    ⟨Source.file (blob n) 0, [], 0, false, false, false, []⟩) z).reaped =
    some (min n z)
  rw [hcc, waitForChildren_eq_min]
  congr 1
  omega

/-- On the abort path the process exits inside Spool and reaps nothing,
whatever was spawned. -/
theorem runMain_reaped_none (inflate : List Char → List Char) (fuel : Nat)
    (data : List Char) (s : Bool) (envs : List ProcessEnv) (z : Nat)
    (h : (runMain inflate fuel data s envs z).outcome = UOutcome.failure) :
    (runMain inflate fuel data s envs z).reaped = none :=
  (runMainFrom_failure _ z h).2.2

/-- Claim C6 (amended): a tower of n compressed layers spawns exactly n
children, but reaping is best effort: a successful run makes n
nonblocking attempts and reaps only the children already exited
(min n zombies), and an aborted run exits inside Spool without reaping
at all. -/
theorem c6_amended_thm :
    (∀ n fuel z, n + 2 ≤ fuel →
      (runMain inflateN fuel (blob n) true [] z).count = n ∧
      (runMain inflateN fuel (blob n) true [] z).outcome = UOutcome.success ∧
      (runMain inflateN fuel (blob n) true [] z).reaped = some (min n z)) ∧
    (∀ inflate fuel data s envs z,
      (runMain inflate fuel data s envs z).outcome = UOutcome.failure →
      (runMain inflate fuel data s envs z).reaped = none) :=
  ⟨runMain_blob, runMain_reaped_none⟩

/-- Claim C6 witness: a single-layer tower with the child still running
at exit spawns one child and reaps zero. -/
theorem c6_amended_witness :
    (runMain inflateN 5 (blob 1) true [] 0).count = 1 ∧
    (runMain inflateN 5 (blob 1) true [] 0).reaped = some (min 1 0) :=
  ⟨(c6_amended_thm.1 1 5 0 (by omega)).1, (c6_amended_thm.1 1 5 0 (by omega)).2.2⟩

/-- Claim C6 counterexample: one child is spawned for the single layer,
the batch succeeds, yet zero children are reaped before exit (the child
had not exited when the nonblocking waitpid ran), refuting exactly-N
reaping. -/
theorem c6_counterexample :
    (runMain inflateN 5 (blob 1) true [] 0).count = 1 ∧
    (runMain inflateN 5 (blob 1) true [] 0).outcome = UOutcome.success ∧
    (runMain inflateN 5 (blob 1) true [] 0).reaped = some 0 ∧
    (runMain inflateN 5 (blob 1) true [] 0).reaped ≠
      some (runMain inflateN 5 (blob 1) true [] 0).count := by
  refine ⟨by decide, by decide, by decide, by decide⟩

/-- Filtering for the rename finds nothing among the data writes. -/
theorem filter_isRen_writes (nm : List Char) (chunks : List Nat) :
    (chunks.map (fun l => FsOp.writeOp nm l)).filter FsOp.isRen = [] := by
  induction chunks with
  | nil => rfl
  | cons a t ih => simp [List.filter_cons, FsOp.isRen, ih]

/-- Claim C10: the replay sweep skips dot-named entries and non-regular
files; Spool writes every byte to a dot-named temporary, and the only
rename — onto the final non-dot name — is the very last operation, after
the close of the temporary; hence a partially written spool file is
never picked up for replay. -/
theorem c10_thm (host sfx1 sfx2 : List Char) (chunks : List Nat) :
    (∀ nm r, nm.head? = some '.' → unspoolConsiders nm r = false) ∧
    (∀ nm, unspoolConsiders nm false = false) ∧
    (spoolTmpName host sfx1).head? = some '.' ∧
    (∀ nm l, FsOp.writeOp nm l ∈ spoolTrace host sfx1 sfx2 chunks →
      nm = spoolTmpName host sfx1) ∧
    (spoolTrace host sfx1 sfx2 chunks).getLast? =
      some (FsOp.renameOp (spoolTmpName host sfx1) (spoolFinalName host sfx2)) ∧
    (spoolTrace host sfx1 sfx2 chunks).filter FsOp.isRen =
      [FsOp.renameOp (spoolTmpName host sfx1) (spoolFinalName host sfx2)] ∧
    FsOp.closeOp (spoolTmpName host sfx1) ∈
      (spoolTrace host sfx1 sfx2 chunks).dropLast := by
  refine ⟨?_, ?_, rfl, ?_, ?_, ?_, ?_⟩
  · intro nm r h
    simp [unspoolConsiders, h]
  · intro nm
    simp [unspoolConsiders]
  · intro nm l h
    simp [spoolTrace, List.mem_append, List.mem_cons, List.mem_map] at h
    exact h.2.symm
  · rw [spoolTrace, List.getLast?_concat]
  · rw [spoolTrace]
    simp [List.filter_append, List.filter_cons, FsOp.isRen, filter_isRen_writes]
  · rw [spoolTrace, List.dropLast_concat]
    simp

/-- Claim C10 witness: the theorem at a concrete host, suffixes and chunk
list; the dot-named temporary is invisible to the sweep and the rename is
last. -/
theorem c10_witness :
    unspoolConsiders (spoolTmpName "uu".data "abc123".data) true = false ∧
    (spoolTrace "uu".data "abc123".data "def456".data [3, 2]).getLast? =
      some (FsOp.renameOp (spoolTmpName "uu".data "abc123".data)
        (spoolFinalName "uu".data "def456".data)) :=
  ⟨(c10_thm "uu".data "abc123".data "def456".data [3, 2]).1
      (spoolTmpName "uu".data "abc123".data) true
      ((c10_thm "uu".data "abc123".data "def456".data [3, 2]).2.2.1),
   (c10_thm "uu".data "abc123".data "def456".data [3, 2]).2.2.2.2.1⟩

/-- Claim C9 witness: the theorem at the full article with the peer
answering the unknown offer code 290. -/
theorem c9_witness :
    (Process artFull envOddOffer).sent = [ServerMsg.offerLine "m"] ∧
    (Process artFull envOddOffer).ok = true ∧
    (Process artFull envOddOffer).rejected = true ∧
    (Process artFull envOddOffer).outcome = POutcome.offerUnknownReply :=
  c9_thm artFull "m" "290 strange" envOddOffer (by decide) (by decide)
    (by decide) (by decide) (by decide) (by decide) (by decide) (by decide)

end Rnews
